import Mathlib

/-!
# Verification of the deferclient repository

A shallow embedding of the `deferclient` and `deferstats` Go packages
(files `deferclient/client.go`, `deferclient/command.go`,
`deferstats/http.go`) together with proofs of the specification claims.

Modelling conventions:
* Go `int` / `int64` values are modelled as `Int`; byte counts and
  durations that are non-negative by construction are modelled as `Nat`.
* Go strings are modelled as Lean `String` (a list of characters); the
  single-byte characters manipulated by the code (`\n`, `\t`, NUL) are
  one `Char` each in both representations.
* Fallible external collaborators (the HTTP transport, `ioutil.ReadAll`,
  `json.Unmarshal`) are oracles: their outcome on the one occasion the
  code consults them is passed in as data (the `Transport` structure).
* A Go function that can panic is embedded with result type
  `GoOutcome α`; `deferred recover()` blocks are explicit wrappers that
  turn a `panicked` result back into a normal one, exactly where the
  source installs them.
-/

/-- Outcome of running a Go computation: either a normal result or a
panic carrying the (stringified) panic value. -/
inductive GoOutcome (α : Type) where
  | ok (a : α)
  | panicked (msg : String)
deriving Repr, DecidableEq

/-- True when the computation returned normally. -/
def GoOutcome.isOk {α : Type} : GoOutcome α → Bool
  | .ok _ => true
  | .panicked _ => false

/-! ## deferclient/command.go -/

/-- `Command` from `command.go` (field `Type` is consulted by
`Postit`'s dispatch switch; it is declared in a file of the repository
outside `src/`, its JSON shape — a string — is given by the spec's
collector-reply schema). `Type` is a Lean keyword, so the field is
spelled `type'`. -/
structure Command where
  Id : Int
  type' : String
  GenerateTrace : Bool
  Requested : Bool
  Executed : Bool
deriving Repr, DecidableEq

/-- Modelled from the spec: the command-type constant for a trace
capture (`CommandTypeTrace` is declared outside `src/`; only its
distinctness from the other two constants matters to the dispatch
switch). -/
def CommandTypeTrace : String := "trace"

/-- Modelled from the spec: the command-type constant for a CPU-profile
capture. -/
def CommandTypeCPUProfile : String := "cpuprofile"

/-- Modelled from the spec: the command-type constant for a mem-profile
capture. -/
def CommandTypeMemProfile : String := "memprofile"

/-- A capture task launched (`go c.Make…`) by `Postit`'s dispatch loop.
The task bodies live outside `src/`; only the launch event is
modelled. -/
inductive CaptureTask where
  | makeTrace (id : Int)
  | makeCPUProfile (id : Int)
  | makeMemProfile (id : Int)
deriving Repr, DecidableEq

/-- Id of the command a capture task was launched for. -/
def CaptureTask.id : CaptureTask → Int
  | .makeTrace i => i
  | .makeCPUProfile i => i
  | .makeMemProfile i => i

/-! ## deferclient/client.go -/

/-- `DeferJSON` from `client.go`: the POSTed panic-report body.
`SpanId` carries the Go zero value `0` when never assigned. -/
structure DeferJSON where
  Msg : String
  BackTrace : String
  SpanId : Int
deriving Repr, DecidableEq

/-- The `json:"SpanId,omitempty"` tag on `DeferJSON.SpanId`: the
serialized body contains the `SpanId` field exactly when the field
value is not the zero value. -/
def serializedHasSpanId (dj : DeferJSON) : Bool :=
  dj.SpanId != 0

/-- `Response` from `client.go`: the decoded collector reply (the
`AgentID` field is opaque agent state, not consulted by the dispatch
loop, and is omitted). -/
structure GoResponse where
  Commands : List Command
deriving Repr, DecidableEq

/-- `strings.Replace(s, old, new, -1)` for a single-character `old`,
on the character-list view of the string. -/
def replaceAll : List Char → Char → List Char → List Char
  | [], _, _ => []
  | c :: cs, t, r => (if c = t then r else [c]) ++ replaceAll cs t r

/-- Go `unicode.IsSpace`: the white-space code points recognised by
`strings.TrimSpace`. -/
def goIsSpace (c : Char) : Bool :=
  c.toNat = 9 || c.toNat = 10 || c.toNat = 11 || c.toNat = 12 ||
  c.toNat = 13 || c.toNat = 32 || c.toNat = 0x85 || c.toNat = 0xA0 ||
  c.toNat = 0x1680 || (0x2000 ≤ c.toNat && c.toNat ≤ 0x200A) ||
  c.toNat = 0x2028 || c.toNat = 0x2029 || c.toNat = 0x202F ||
  c.toNat = 0x205F || c.toNat = 0x3000

/-- `strings.TrimSpace` on the character-list view: drop white space
from both ends. -/
def trimSpace (l : List Char) : List Char :=
  ((l.dropWhile goIsSpace).reverse.dropWhile goIsSpace).reverse

/-- `cleanTrace` from `client.go`: newline → `\n`, tab → `\t`,
NUL → space, then `strings.TrimSpace`. -/
def cleanTrace (body : String) : String :=
  ⟨trimSpace (replaceAll (replaceAll (replaceAll body.data '\n' ['\\', 'n'])
      '\t' ['\\', 't']) '\x00' [' '])⟩

/-- The spec's description of the sanitisation, character by character:
each newline becomes the two-character sequence `\n`, each tab the
two-character sequence `\t`, each NUL byte a space, all other
characters pass through. -/
def expandChar (c : Char) : List Char :=
  if c = '\n' then ['\\', 'n']
  else if c = '\t' then ['\\', 't']
  else if c = '\x00' then [' ']
  else [c]

/-- The spec's description of `cleanTrace`: expand every character,
then trim surrounding white space. -/
def cleanTraceSpec (body : String) : String :=
  ⟨trimSpace (body.data.flatMap expandChar)⟩

/-- Log lines produced by `Postit`'s status-code switch. -/
def statusLogs (sc : Int) : List String :=
  if sc = 401 then ["wrong or invalid API token"]
  else if sc = 429 then ["too many requests - you are being rate limited"]
  else if sc = 503 then ["service not available"]
  else []

/-- One step of `Postit`'s dispatch loop body: read
`c.RunningCommands[command.Id]` under the lock (a missing key reads as
false, so the marked ids are carried as a list); if not running,
switch on `command.Type` and launch the matching capture task;
unknown types are logged.  `Postit` itself never writes
`RunningCommands`. Returns the launched task (if any) and the log
lines. -/
def dispatchCommand (running : List Int) (c : Command) :
    Option CaptureTask × List String :=
  if c.Id ∈ running then (none, [])
  else if c.type' = CommandTypeTrace then (some (.makeTrace c.Id), [])
  else if c.type' = CommandTypeCPUProfile then (some (.makeCPUProfile c.Id), [])
  else if c.type' = CommandTypeMemProfile then (some (.makeMemProfile c.Id), [])
  else (none, ["Unknown command " ++ c.type'])

/-- `Postit`'s `for _, command := range response.Commands` loop.
Returns the launched capture tasks, the log lines, and the final
`RunningCommands` state (the loop only reads the map, so each
iteration sees the state the loop was entered with). -/
def postitLoop : List Int → List Command → List CaptureTask × List String × List Int
  | running, [] => ([], [], running)
  | running, c :: cs =>
    let step := dispatchCommand running c
    let rest := postitLoop running cs
    (step.1.toList ++ rest.1, step.2 ++ rest.2.1, rest.2.2)

/-- Result of `json.Unmarshal` on the reply bytes: either the error
(whose text is logged) or the decoded `Response`. -/
inductive DecodeResult where
  | failed (e : String)
  | decoded (r : GoResponse)
deriving Repr, DecidableEq

/-- Oracle for the external collaborators consulted by one `Postit`
call: whether `http.NewRequest` succeeded (its error is discarded; on
failure the returned request is nil and the following `Header.Set`
panics), the result of `HttpClient.Do`, of `ioutil.ReadAll`, and of
`json.Unmarshal` on the reply bytes. -/
structure Transport where
  newRequestOk : Bool
  doErr : Option String
  statusCode : Int
  readAllErr : Option String
  decoded : DecodeResult
deriving Repr, DecidableEq

/-- Externally visible effects and final state of one `Postit` call. -/
structure PostitOut where
  requestBuilt : Bool
  sendAttempted : Bool
  logs : List String
  dispatches : List CaptureTask
  finalRunning : List Int
deriving Repr, DecidableEq

/-- The body of `Postit` from `client.go`, without the deferred
recovery block: early return on `NoPost`; build the request (a failed
`http.NewRequest` leaves `req` nil and the `req.Header.Set` call
panics); perform the send; log the status-code cases; when
`analyseResponse` is set, read and decode the reply and run the
dispatch loop.  Decode and read failures are logged and abandon the
reply. -/
def PostitBody (noPost : Bool) (running : List Int) (analyseResponse : Bool)
    (tr : Transport) : GoOutcome PostitOut :=
  if noPost then
    .ok { requestBuilt := false, sendAttempted := false, logs := [],
          dispatches := [], finalRunning := running }
  else if tr.newRequestOk = false then
    .panicked "runtime error: invalid memory address or nil pointer dereference"
  else
    match tr.doErr with
    | some e =>
      .ok { requestBuilt := true, sendAttempted := true, logs := [e],
            dispatches := [], finalRunning := running }
    | none =>
      let slogs := statusLogs tr.statusCode
      if analyseResponse = false then
        .ok { requestBuilt := true, sendAttempted := true, logs := slogs,
              dispatches := [], finalRunning := running }
      else
        match tr.readAllErr with
        | some e =>
          .ok { requestBuilt := true, sendAttempted := true, logs := slogs ++ [e],
                dispatches := [], finalRunning := running }
        | none =>
          match tr.decoded with
          | .failed e =>
            .ok { requestBuilt := true, sendAttempted := true, logs := slogs ++ [e],
                  dispatches := [], finalRunning := running }
          | .decoded resp =>
            let looped := postitLoop running resp.Commands
            .ok { requestBuilt := true, sendAttempted := true,
                  logs := slogs ++ looped.2.1, dispatches := looped.1,
                  finalRunning := looped.2.2 }

/-- The deferred `recover()` block installed at the top of `Postit`:
a panic is caught, formatted with `%q` and logged, and the call
returns normally.  The only panic site in the body is the
`req.Header.Set` on a nil request, which occurs after the request
build began and before any send or dispatch. -/
def postitRecover (running : List Int) : GoOutcome PostitOut → GoOutcome PostitOut
  | .ok r => .ok r
  | .panicked m =>
    .ok { requestBuilt := true, sendAttempted := false,
          logs := ["\"" ++ m ++ "\""], dispatches := [], finalRunning := running }

/-- `Postit` from `client.go`: the body wrapped in the deferred
recovery block. -/
def Postit (noPost : Bool) (running : List Int) (analyseResponse : Bool)
    (tr : Transport) : GoOutcome PostitOut :=
  postitRecover running (PostitBody noPost running analyseResponse tr)

/-- Externally visible effects of one `ShipTrace` call: the report
body it built (none when `NoPost` short-circuits) and the `Postit`
call it made (none when `NoPost` short-circuits; `json.Marshal` of a
`DeferJSON` value cannot fail and is treated as always succeeding). -/
structure ShipOut where
  builtBody : Option DeferJSON
  postitCall : Option (GoOutcome PostitOut)
deriving Repr, DecidableEq

/-- `ShipTrace` from `client.go`: early return on `NoPost`; sanitise
the trace; build the `DeferJSON` body, assigning `SpanId` only when
the argument is positive; marshal and POST it via `Postit` with
`analyseResponse = false`. -/
def ShipTrace (noPost : Bool) (running : List Int) (tr : Transport)
    (exception errorstr : String) (spanId : Int) : ShipOut :=
  if noPost then { builtBody := none, postitCall := none }
  else
    let body := cleanTrace exception
    let dj : DeferJSON := { Msg := errorstr, BackTrace := body, SpanId := 0 }
    let dj := if spanId > 0 then { dj with SpanId := spanId } else dj
    { builtBody := some dj, postitCall := some (Postit noPost running false tr) }

/-- A concrete trace-capture command, used in concrete evaluations. -/
def cmdTrace1 : Command :=
  { Id := 1, type' := CommandTypeTrace, GenerateTrace := false,
    Requested := true, Executed := false }

/-- A concrete transport oracle on which every external collaborator
succeeds and the reply decodes to an empty command list; used in
concrete evaluations. -/
def trOk : Transport :=
  { newRequestOk := true, doErr := none, statusCode := 200,
    readAllErr := none, decoded := .decoded { Commands := [] } }

/-! ## deferstats/http.go -/

/-- `DeferHTTP` from `http.go`: one recorded request outcome.
`Headers` (a Go `map[string]string`) is carried as an association
list in insertion order. -/
structure DeferHTTP where
  Path : String
  Method : String
  StatusCode : Int
  Time : Int
  SpanId : Int
  ParentSpanId : Int
  IsProblem : Bool
  Headers : List (String × String)
deriving Repr, DecidableEq

/-- `ResponseTracer` from `http.go`.  The wrapped writer `w` is an
external collaborator; delegated calls are modelled by the oracle
arguments and return values of `write`/`writeHeader`.  A zero value
models the Go zero-initialised fields. -/
structure ResponseTracer where
  status : Int
  size : Int
  SpanId : Int
  ParentSpanId : Int
deriving Repr, DecidableEq

/-- `(*ResponseTracer).Write` from `http.go`: if no status has been
recorded yet, record `200`; delegate to the wrapped writer (whose
returned byte count and error are the oracle arguments `usize`,
`uerr`), accumulate the returned byte count, and pass the underlying
return values through. -/
def ResponseTracer.write (l : ResponseTracer) (usize : Int)
    (uerr : Option String) : ResponseTracer × Int × Option String :=
  let l' := if l.status = 0 then { l with status := 200 } else l
  ({ l' with size := l'.size + usize }, usize, uerr)

/-- `(*ResponseTracer).WriteHeader` from `http.go`: delegate to the
wrapped writer (an external effect), then record the code. -/
def ResponseTracer.writeHeader (l : ResponseTracer) (s : Int) : ResponseTracer :=
  { l with status := s }

/-- `(*ResponseTracer).Status` from `http.go`. -/
def ResponseTracer.Status (l : ResponseTracer) : Int := l.status

/-- `(*ResponseTracer).Size` from `http.go`. -/
def ResponseTracer.Size (l : ResponseTracer) : Int := l.size

/-- An `http.ResponseWriter` value as seen by `GetSpanId`: either the
`*ResponseTracer` the interceptor installed, or any other
implementation (identified here only by a name, enough to model the
failing type assertion). -/
inductive RespWriter where
  | tracer (t : ResponseTracer)
  | other (impl : String)
deriving Repr, DecidableEq

/-- `GetSpanId` from `http.go`: the unchecked type assertion
`r.(*ResponseTracer)` panics on any other implementation. -/
def GetSpanId : RespWriter → GoOutcome Int
  | .tracer t => .ok t.SpanId
  | .other impl =>
    .panicked ("interface conversion: http.ResponseWriter is " ++ impl ++
      ", not *deferstats.ResponseTracer")

/-- `GetSpanIdString` from `http.go`: `strconv.FormatInt(GetSpanId r, 10)`
(base-10 formatting of an `Int` agrees with `toString`); a panic in
`GetSpanId` propagates. -/
def GetSpanIdString (r : RespWriter) : GoOutcome String :=
  match GetSpanId r with
  | .ok n => .ok (toString n)
  | .panicked m => .panicked m

/-- `strings.Join(v, sep)`. -/
def goJoin (sep : String) : List String → String
  | [] => ""
  | [x] => x
  | x :: y :: xs => x ++ sep ++ goJoin sep (y :: xs)

/-- Is `c` an ASCII decimal digit. -/
def isGoDigit (c : Char) : Bool := 48 ≤ c.toNat && c.toNat ≤ 57

/-- Base-10 digit-string value: `none` on a non-digit. -/
def digitsValAux : Nat → List Char → Option Nat
  | acc, [] => some acc
  | acc, c :: cs =>
    if isGoDigit c then digitsValAux (acc * 10 + (c.toNat - 48)) cs else none

/-- `strconv.ParseInt(s, 10, 64)`: the returned value and whether
parsing succeeded.  On a syntax error (empty string, empty digit run,
non-digit character) the value is `0`; on range overflow the value is
clamped to the `int64` bounds.  `BeforeRequest` discards the error. -/
def goParseInt64 (s : String) : Int × Bool :=
  match s.data with
  | [] => (0, false)
  | c :: rest =>
    let signDigits : Bool × List Char :=
      if c = '-' then (true, rest)
      else if c = '+' then (false, rest)
      else (false, c :: rest)
    match signDigits.2 with
    | [] => (0, false)
    | d :: ds =>
      match digitsValAux 0 (d :: ds) with
      | none => (0, false)
      | some n =>
        if signDigits.1 then
          if n > 2 ^ 63 then (-(2 ^ 63 : Int), false) else (-(n : Int), true)
        else
          if n ≥ 2 ^ 63 then ((2 ^ 63 : Int) - 1, false) else ((n : Int), true)

/-- The `for k, v := range r.Header` loop of `BeforeRequest`: copy each
header into the flat map joining the values with commas, and on the
`X-Dpparentspanid` key parse `v[0]` as the parent span id, discarding
the parse error.  (Go would panic on an empty value slice; `net/http`
never produces one, and `headD` reads the first element.)  The
request-header map is carried as an association list with distinct
keys, so the arbitrary Go map iteration order is immaterial. -/
def BeforeRequestLoop : ResponseTracer → List (String × String) →
    List (String × List String) → ResponseTracer × List (String × String)
  | tracer, acc, [] => (tracer, acc)
  | tracer, acc, (k, v) :: rest =>
    let acc' := acc ++ [(k, goJoin "," v)]
    let tracer' :=
      if k = "X-Dpparentspanid" then
        { tracer with ParentSpanId := (goParseInt64 (v.headD "")).1 }
      else tracer
    BeforeRequestLoop tracer' acc' rest

/-- `BeforeRequest` from `http.go`: build a fresh tracer over the
original writer (status and size zero), give it a new span id (the
random draw is the oracle `newId`), and run the header loop.  The
start-time read is external and not carried. -/
def BeforeRequest (newId : Int) (reqHeader : List (String × List String)) :
    ResponseTracer × List (String × String) :=
  BeforeRequestLoop
    { status := 0, size := 0, SpanId := newId, ParentSpanId := 0 } [] reqHeader

/-- `appendHTTP` from `http.go`: compute the elapsed whole
milliseconds `t` (integer division of the non-negative elapsed
nanoseconds), and append a `DeferHTTP` record to `curlist` exactly
when `t > LatencyThreshold` or a problem occurred.  The returned
option is the appended record, if any; the `rpms.Inc(status_code)`
counter (code outside `src/`) is recorded by the caller model. -/
def appendHTTP (latencyThreshold : Int) (elapsedNs : Nat) (path method : String)
    (status_code span_id parent_span_id : Int) (isProblem : Bool)
    (headers : List (String × String)) : Option DeferHTTP :=
  let t : Int := ((elapsedNs / 1000000 : Nat) : Int)
  if latencyThreshold < t ∨ isProblem = true then
    some { Path := path, Method := method, Time := t, StatusCode := status_code,
           SpanId := span_id, ParentSpanId := parent_span_id,
           IsProblem := isProblem, Headers := headers }
  else none

/-- The default `WritePanicResponse` from `http.go`: status
`http.StatusInternalServerError` and the panic message as body,
written to the original writer. -/
def WritePanicResponse (errMsg : String) : Int × String :=
  (500, errMsg)

/-- One call the wrapped handler makes on the tracer it was given:
a body write (with the underlying writer's returned byte count and
error as oracles) or a `WriteHeader`. -/
inductive WriterOp where
  | write (usize : Int) (uerr : Option String)
  | writeHeader (code : Int)
deriving Repr, DecidableEq

/-- Apply a sequence of writer calls to a tracer. -/
def runOps : ResponseTracer → List WriterOp → ResponseTracer
  | t, [] => t
  | t, .write usize uerr :: rest => runOps (t.write usize uerr).1 rest
  | t, .writeHeader c :: rest => runOps (t.writeHeader c) rest

/-- The wrapped handler's observable interaction with the interceptor:
the writer calls it performs, and whether it then returns normally or
panics with the given (stringified) value. -/
structure HandlerScript where
  ops : List WriterOp
  panicVal : Option String
deriving Repr, DecidableEq

/-- `f.ServeHTTP(tracer, r)` for a handler behaving as `script`. -/
def serveHTTP (tracer : ResponseTracer) (script : HandlerScript) :
    GoOutcome ResponseTracer :=
  let t := runOps tracer script.ops
  match script.panicVal with
  | some v => .panicked v
  | none => .ok t

/-- Externally visible effects of one intercepted request:
the records appended to `curlist`, the argument of the
`rpms.Inc` counter call, the `(panic value, span id)` pairs forwarded
to `BaseClient.Prep`, and the fallback `(status, body)` written to the
original writer by `WritePanicResponse`. -/
structure InterceptOut where
  outcomes : List DeferHTTP
  rpmsStatus : Int
  prepCalls : List (String × Int)
  fallback : Option (Int × String)
deriving Repr, DecidableEq

/-- `HTTPHandler` from `http.go` for one request: run `BeforeRequest`,
invoke the wrapped handler on the tracer inside the deferred recovery
block; on panic, forward the panic value and span id to `Prep`, record
the outcome via `AfterRequest` with status `500` and `isproblem=true`,
and write the fallback response (`fmt.Sprintf("%v", err)` is the
identity on a string panic value) — the recovery block returns
normally; on normal completion record the outcome with the tracer's
status and `isproblem=false`.  The result is `ok` unless a panic
escapes the interceptor. -/
def HTTPHandler (latencyThreshold : Int) (elapsedNs : Nat) (newId : Int)
    (path method : String) (reqHeader : List (String × List String))
    (script : HandlerScript) : GoOutcome InterceptOut :=
  let pre := BeforeRequest newId reqHeader
  let tracer := pre.1
  let headers := pre.2
  match serveHTTP tracer script with
  | .panicked v =>
    let t := runOps tracer script.ops
    .ok { outcomes := (appendHTTP latencyThreshold elapsedNs path method 500
            t.SpanId t.ParentSpanId true headers).toList,
          rpmsStatus := 500,
          prepCalls := [(v, t.SpanId)],
          fallback := some (WritePanicResponse v) }
  | .ok t =>
    .ok { outcomes := (appendHTTP latencyThreshold elapsedNs path method
            t.Status t.SpanId t.ParentSpanId false headers).toList,
          rpmsStatus := t.Status,
          prepCalls := [],
          fallback := none }

/-! ## Helper lemmas -/

/-- `replaceAll` distributes over list append. -/
theorem replaceAll_append (a b : List Char) (t : Char) (r : List Char) :
    replaceAll (a ++ b) t r = replaceAll a t r ++ replaceAll b t r := by
  induction a with
  | nil => rfl
  | cons c cs ih => simp [replaceAll, ih]

/-- The three sequential single-character replacements of `cleanTrace`
equal the character-by-character expansion: the replacement texts for
newline and tab contain no tab or NUL, so later passes leave them
untouched. -/
theorem tripleReplace (l : List Char) :
    replaceAll (replaceAll (replaceAll l '\n' ['\\', 'n']) '\t' ['\\', 't'])
      '\x00' [' '] = l.flatMap expandChar := by
  induction l with
  | nil => rfl
  | cons c cs ih =>
    simp only [replaceAll, replaceAll_append, List.flatMap_cons, ih]
    congr 1
    by_cases h1 : c = '\n'
    · subst h1; decide
    · by_cases h2 : c = '\t'
      · subst h2; decide
      · by_cases h3 : c = '\x00'
        · subst h3; decide
        · simp [replaceAll, expandChar, h1, h2, h3]

/-- `cleanTrace` agrees with its character-wise specification. -/
theorem cleanTrace_eq_spec (s : String) : cleanTrace s = cleanTraceSpec s := by
  unfold cleanTrace cleanTraceSpec
  rw [tripleReplace]

/-- The header loop never touches the tracer's recorded status. -/
theorem BeforeRequestLoop_status (h : List (String × List String)) :
    ∀ (tracer : ResponseTracer) (acc : List (String × String)),
      (BeforeRequestLoop tracer acc h).1.status = tracer.status := by
  induction h with
  | nil => intro tracer acc; rfl
  | cons kv rest ih =>
    intro tracer acc
    cases kv with
    | mk k v =>
      simp only [BeforeRequestLoop]
      rw [ih]
      split <;> rfl

/-- The header loop appends exactly the comma-joined copy of each
header, in order. -/
theorem BeforeRequestLoop_acc (h : List (String × List String)) :
    ∀ (tracer : ResponseTracer) (acc : List (String × String)),
      (BeforeRequestLoop tracer acc h).2 =
        acc ++ h.map (fun kv => (kv.1, goJoin "," kv.2)) := by
  induction h with
  | nil => intro tracer acc; simp [BeforeRequestLoop]
  | cons kv rest ih =>
    intro tracer acc
    cases kv with
    | mk k v =>
      simp only [BeforeRequestLoop]
      rw [ih]
      simp

/-- Without the propagation header, the loop leaves the parent span id
unchanged. -/
theorem BeforeRequestLoop_parent_absent (h : List (String × List String)) :
    ∀ (tracer : ResponseTracer) (acc : List (String × String)),
      (∀ kv ∈ h, kv.1 ≠ "X-Dpparentspanid") →
      (BeforeRequestLoop tracer acc h).1.ParentSpanId = tracer.ParentSpanId := by
  induction h with
  | nil => intro tracer acc _; rfl
  | cons kv rest ih =>
    intro tracer acc hk
    cases kv with
    | mk k v =>
      have hk1 : k ≠ "X-Dpparentspanid" := hk (k, v) (by simp)
      simp only [BeforeRequestLoop]
      rw [ih _ _ (fun kv hm => hk kv (List.mem_cons_of_mem _ hm))]
      simp [hk1]

/-- `appendHTTP` with the problem flag set always appends, and the
appended record carries the given fields. -/
theorem appendHTTP_problem (th : Int) (ns : Nat) (p m : String)
    (sc si pi : Int) (hs : List (String × String)) :
    appendHTTP th ns p m sc si pi true hs =
      some { Path := p, Method := m, StatusCode := sc,
             Time := ((ns / 1000000 : Nat) : Int), SpanId := si,
             ParentSpanId := pi, IsProblem := true, Headers := hs } := by
  simp [appendHTTP]

/-! ## Claim theorems -/

/-- Claim C4: for every input string, `cleanTrace` replaces each
newline with the two-character sequence `\n`, each tab with the
two-character sequence `\t`, each NUL byte with a space, and trims
surrounding whitespace; in particular the input `"a\nb\tc\x00d"`
(with real newline, tab and NUL characters) sanitises to the literal
string `a\nb\tc d`. -/
theorem cleanTrace_sanitization :
    (∀ s : String, cleanTrace s = cleanTraceSpec s) ∧
    cleanTrace "a\nb\tc\x00d" = "a\\nb\\tc d" :=
  ⟨cleanTrace_eq_spec, by decide⟩

/-- Claim C1, counterexample: `Postit`'s dispatch loop launches the
capture task for an unmarked command id but leaves `RunningCommands`
unchanged (the loop only reads the map), so a second reply carrying
the same id launches the task again — refuting both "marks that id as
running before launching" and "launched at most once across all
replies". -/
theorem Postit_marking_counterexample :
    (postitLoop [] [cmdTrace1]).1 = [CaptureTask.makeTrace 1] ∧
    (postitLoop [] [cmdTrace1]).2.2 = [] ∧
    (postitLoop ((postitLoop [] [cmdTrace1]).2.2) [cmdTrace1]).1 =
      [CaptureTask.makeTrace 1] := by
  decide

/-- Claim C1, amended: when `Postit` analyses a collector reply it
launches the matching capture task for exactly those decoded commands
whose id is not already marked running (commands with marked ids are
skipped silently), but it does not itself mark any id as running —
`RunningCommands` is left unchanged, and any marking is left to the
launched capture task (code outside `src/`). -/
theorem Postit_dispatch_amended :
    (∀ (running : List Int) (cmds : List Command),
      (postitLoop running cmds).2.2 = running ∧
      (postitLoop running cmds).1 =
        cmds.filterMap (fun c => (dispatchCommand running c).1)) ∧
    (∀ (running : List Int) (c : Command),
      c.Id ∈ running → (dispatchCommand running c).1 = none) := by
  constructor
  · intro running cmds
    induction cmds with
    | nil => exact ⟨rfl, rfl⟩
    | cons c cs ih =>
      simp only [postitLoop, List.filterMap_cons]
      refine ⟨ih.1, ?_⟩
      cases h : (dispatchCommand running c).1 <;>
        simp [h, ih.2, Option.toList]
  · intro running c h
    simp [dispatchCommand, h]

/-- Claim C1, amended, witness: a command whose id is already marked
running is skipped. -/
theorem Postit_dispatch_amended_witness :
    (dispatchCommand [1] cmdTrace1).1 = none :=
  Postit_dispatch_amended.2 [1] cmdTrace1 (by decide)

/-- Claim C5, counterexample: a `ShipTrace` call with the nonzero
span id `-1` builds a body whose `SpanId` field is the zero value, so
the serialized report omits the field although the argument is
nonzero — the field is present exactly when the argument is positive,
not when it is nonzero. -/
theorem ShipTrace_spanId_counterexample :
    (ShipTrace false [] trOk "tr" "msg" (-1)).builtBody =
      some { Msg := "msg", BackTrace := "tr", SpanId := 0 } ∧
    (-1 : Int) ≠ 0 ∧
    serializedHasSpanId { Msg := "msg", BackTrace := "tr", SpanId := 0 } = false := by
  refine ⟨by decide, by decide, by decide⟩

/-- Claim C5, amended: whenever `ShipTrace` builds a report body, the
serialized body contains the `SpanId` field exactly when the `spanId`
argument is positive; it is omitted when the argument is zero or
negative. -/
theorem ShipTrace_spanId_amended (noPost : Bool) (running : List Int)
    (tr : Transport) (exc errs : String) (spanId : Int) (dj : DeferJSON)
    (h : (ShipTrace noPost running tr exc errs spanId).builtBody = some dj) :
    serializedHasSpanId dj = true ↔ 0 < spanId := by
  cases noPost with
  | true => simp [ShipTrace] at h
  | false =>
    simp only [ShipTrace, Bool.false_eq_true, if_false, Option.some.injEq] at h
    by_cases hs : 0 < spanId
    · rw [if_pos hs] at h
      subst h
      simp only [serializedHasSpanId, bne_iff_ne, ne_eq, decide_eq_true_eq]
      constructor
      · intro _; exact hs
      · intro _; omega
    · rw [if_neg hs] at h
      subst h
      simp only [serializedHasSpanId]
      constructor
      · intro hcon; exact absurd hcon (by decide)
      · intro hcon; exact absurd hcon hs

/-- Claim C5, amended, witness: a positive span id is carried in the
serialized body. -/
theorem ShipTrace_spanId_amended_witness :
    serializedHasSpanId { Msg := "m", BackTrace := "t", SpanId := 7 } = true :=
  (ShipTrace_spanId_amended false [] trOk "t" "m" 7
    { Msg := "m", BackTrace := "t", SpanId := 7 } (by decide)).mpr (by decide)

/-- Claim C10: with `NoPost = true`, `ShipTrace` and `Postit` return
immediately: no HTTP request is built or sent, no command is
dispatched, nothing is logged, no report body is built, and
`RunningCommands` is unchanged. -/
theorem NoPost_frame (running : List Int) (analyse : Bool) (tr : Transport)
    (exc errs : String) (spanId : Int) :
    Postit true running analyse tr =
      .ok { requestBuilt := false, sendAttempted := false, logs := [],
            dispatches := [], finalRunning := running } ∧
    ShipTrace true running tr exc errs spanId =
      { builtBody := none, postitCall := none } :=
  ⟨rfl, rfl⟩

/-- Claim C8: when the collector reply fails to decode, `Postit` with
`analyseResponse = true` logs the decode error, dispatches zero
commands and returns normally; moreover no reply-processing error ever
propagates to `Postit`'s caller — every call returns normally through
the deferred recovery block. -/
theorem Postit_decodeFailure :
    (∀ (running : List Int) (tr : Transport) (e : String),
      tr.newRequestOk = true → tr.doErr = none → tr.readAllErr = none →
      tr.decoded = .failed e →
      Postit false running true tr =
        .ok { requestBuilt := true, sendAttempted := true,
              logs := statusLogs tr.statusCode ++ [e], dispatches := [],
              finalRunning := running }) ∧
    (∀ (noPost : Bool) (running : List Int) (analyse : Bool) (tr : Transport),
      (Postit noPost running analyse tr).isOk = true) := by
  constructor
  · intro running tr e h1 h2 h3 h4
    simp [Postit, PostitBody, postitRecover, h1, h2, h3, h4]
  · intro noPost running analyse tr
    unfold Postit
    cases PostitBody noPost running analyse tr with
    | ok r => rfl
    | panicked m => rfl

/-- Claim C8, witness: a concrete decode failure is logged and yields
no dispatches. -/
theorem Postit_decodeFailure_witness :
    Postit false [] true
      { newRequestOk := true, doErr := none, statusCode := 200,
        readAllErr := none, decoded := .failed "invalid character" } =
      .ok { requestBuilt := true, sendAttempted := true,
            logs := statusLogs 200 ++ ["invalid character"], dispatches := [],
            finalRunning := [] } :=
  Postit_decodeFailure.1 []
    { newRequestOk := true, doErr := none, statusCode := 200,
      readAllErr := none, decoded := .failed "invalid character" }
    "invalid character" rfl rfl rfl rfl

/-- Claim C9: `GetSpanId` reads the span id off a `*ResponseTracer`,
but on every other `http.ResponseWriter` implementation the unchecked
type assertion panics, and the panic propagates through
`GetSpanIdString` as well. -/
theorem GetSpanId_typeAssertion :
    (∀ t : ResponseTracer, GetSpanId (RespWriter.tracer t) = .ok t.SpanId) ∧
    (∀ w : RespWriter, (∀ t, w ≠ RespWriter.tracer t) →
      ∃ msg, GetSpanId w = .panicked msg ∧ GetSpanIdString w = .panicked msg) := by
  constructor
  · intro t; rfl
  · intro w hw
    cases w with
    | tracer t => exact absurd rfl (hw t)
    | other impl => exact ⟨_, rfl, rfl⟩

/-- Claim C9, witness: a plain response writer makes both accessors
panic. -/
theorem GetSpanId_typeAssertion_witness :
    ∃ msg, GetSpanId (RespWriter.other "http.responseWriter") = .panicked msg ∧
      GetSpanIdString (RespWriter.other "http.responseWriter") = .panicked msg :=
  GetSpanId_typeAssertion.2 (RespWriter.other "http.responseWriter")
    (fun _ h => by cases h)

/-- Claim C6: the tracer built by `BeforeRequest` starts with recorded
status `0` (the nothing-written-yet sentinel, distinct from `200`); a
`Write` while the status is `0` records status `200` and accumulates
the underlying byte count; every `Write` returns the underlying
write's byte count and error unchanged; `WriteHeader` records its
code, last call winning; `Status` and `Size` are pure accessors of the
recorded status and accumulated byte count. -/
theorem ResponseTracer_stateMachine :
    (∀ (newId : Int) (reqHeader : List (String × List String)),
      (BeforeRequest newId reqHeader).1.status = 0) ∧
    ((0 : Int) ≠ 200) ∧
    (∀ (l : ResponseTracer) (usize : Int) (uerr : Option String),
      l.status = 0 →
      ((l.write usize uerr).1.status = 200 ∧
       (l.write usize uerr).1.size = l.size + usize)) ∧
    (∀ (l : ResponseTracer) (usize : Int) (uerr : Option String),
      (l.write usize uerr).2.1 = usize ∧ (l.write usize uerr).2.2 = uerr) ∧
    (∀ (l : ResponseTracer) (s : Int), (l.writeHeader s).status = s) ∧
    (∀ (l : ResponseTracer) (a b : Int),
      ((l.writeHeader a).writeHeader b).status = b) ∧
    (∀ l : ResponseTracer, l.Status = l.status ∧ l.Size = l.size) := by
  refine ⟨?_, by decide, ?_, ?_, ?_, ?_, ?_⟩
  · intro newId reqHeader
    exact BeforeRequestLoop_status reqHeader _ _
  · intro l usize uerr h
    simp [ResponseTracer.write, h]
  · intro l usize uerr
    exact ⟨rfl, rfl⟩
  · intro l s
    rfl
  · intro l a b
    rfl
  · intro l
    exact ⟨rfl, rfl⟩

/-- Claim C6, witness: a write on a fresh-status tracer records `200`
and accumulates the byte count. -/
theorem ResponseTracer_stateMachine_witness :
    (ResponseTracer.write
        { status := 0, size := 4, SpanId := 5, ParentSpanId := 0 } 3 none).1.status
      = 200 ∧
    (ResponseTracer.write
        { status := 0, size := 4, SpanId := 5, ParentSpanId := 0 } 3 none).1.size
      = 4 + 3 :=
  ResponseTracer_stateMachine.2.2.1
    { status := 0, size := 4, SpanId := 5, ParentSpanId := 0 } 3 none rfl

/-- Claim C7: `BeforeRequest` copies each inbound header into a flat
string map joining multi-valued headers with commas, and sets the
parent span id by a best-effort base-10 parse of the first
`X-Dpparentspanid` value: the value `42` yields `42`, a non-numeric
value yields `0` (the parse error is discarded, never raised), and a
request without the header yields `0`. -/
theorem BeforeRequest_headers :
    (∀ (newId : Int) (reqHeader : List (String × List String)),
      (BeforeRequest newId reqHeader).2 =
        reqHeader.map (fun kv => (kv.1, goJoin "," kv.2))) ∧
    (∀ (newId : Int) (v : String) (vs : List String),
      (BeforeRequest newId [("X-Dpparentspanid", v :: vs)]).1.ParentSpanId =
        (goParseInt64 v).1) ∧
    ((BeforeRequest 9 [("X-Dpparentspanid", ["42"])]).1.ParentSpanId = 42) ∧
    ((BeforeRequest 9 [("X-Dpparentspanid", ["abc"])]).1.ParentSpanId = 0) ∧
    (∀ (newId : Int) (reqHeader : List (String × List String)),
      (∀ kv ∈ reqHeader, kv.1 ≠ "X-Dpparentspanid") →
      (BeforeRequest newId reqHeader).1.ParentSpanId = 0) := by
  refine ⟨?_, ?_, by decide, by decide, ?_⟩
  · intro newId reqHeader
    simpa using BeforeRequestLoop_acc reqHeader _ []
  · intro newId v vs
    simp [BeforeRequest, BeforeRequestLoop]
  · intro newId reqHeader hk
    exact BeforeRequestLoop_parent_absent reqHeader _ [] hk

/-- Claim C7, witness: a request without the propagation header yields
parent span id `0`. -/
theorem BeforeRequest_headers_witness :
    (BeforeRequest 9 [("Accept", ["text/html"])]).1.ParentSpanId = 0 :=
  BeforeRequest_headers.2.2.2.2 9 [("Accept", ["text/html"])] (by decide)

/-- Claim C2: for every request whose wrapped handler panics, the
interceptor records exactly one outcome, with status code `500` and
the problem flag set, writes the fallback response `(500, panic
value)` to the original writer, and returns normally — the panic is
not re-raised to the interceptor's caller. -/
theorem HTTPHandler_panicPath (th : Int) (ns : Nat) (nid : Int) (p m : String)
    (hdr : List (String × List String)) (ops : List WriterOp) (v : String) :
    ∃ r dh,
      HTTPHandler th ns nid p m hdr { ops := ops, panicVal := some v } = .ok r ∧
      r.outcomes = [dh] ∧ dh.StatusCode = 500 ∧ dh.IsProblem = true ∧
      r.fallback = some (500, v) := by
  simp only [HTTPHandler, serveHTTP, appendHTTP_problem]
  exact ⟨_, _, rfl, rfl, rfl, rfl, rfl⟩

/-- `appendHTTP` records nothing for a non-problem request at or
under the latency threshold. -/
theorem appendHTTP_under (th : Int) (ns : Nat)
    (h : ((ns / 1000000 : Nat) : Int) ≤ th) (p m : String) (sc si pi : Int)
    (hs : List (String × String)) :
    appendHTTP th ns p m sc si pi false hs = none := by
  simp only [appendHTTP]
  exact if_neg (by rintro (hlt | hf)
                   · exact absurd hlt (not_lt.mpr h)
                   · cases hf)

/-- `appendHTTP` over the latency threshold always appends the record
built from its arguments. -/
theorem appendHTTP_over (th : Int) (ns : Nat)
    (h : th < ((ns / 1000000 : Nat) : Int)) (p m : String) (sc si pi : Int)
    (prob : Bool) (hs : List (String × String)) :
    appendHTTP th ns p m sc si pi prob hs =
      some { Path := p, Method := m, StatusCode := sc,
             Time := ((ns / 1000000 : Nat) : Int), SpanId := si,
             ParentSpanId := pi, IsProblem := prob, Headers := hs } := by
  simp only [appendHTTP]
  exact if_pos (Or.inl h)

/-- Claim C3: `appendHTTP` appends an outcome exactly when the elapsed
whole milliseconds exceed the threshold or the problem flag is set; on
the interceptor's normal path a request at or under the threshold
records nothing, and a request over the threshold records exactly one
outcome with the problem flag clear. -/
theorem appendHTTP_policy :
    (∀ (th : Int) (ns : Nat) (p m : String) (sc si pi : Int) (prob : Bool)
      (hs : List (String × String)),
      (appendHTTP th ns p m sc si pi prob hs).isSome = true ↔
        (th < ((ns / 1000000 : Nat) : Int) ∨ prob = true)) ∧
    (∀ (th : Int) (ns : Nat) (nid : Int) (p m : String)
      (hdr : List (String × List String)) (ops : List WriterOp),
      ((ns / 1000000 : Nat) : Int) ≤ th →
      ∃ r, HTTPHandler th ns nid p m hdr { ops := ops, panicVal := none } = .ok r ∧
        r.outcomes = []) ∧
    (∀ (th : Int) (ns : Nat) (nid : Int) (p m : String)
      (hdr : List (String × List String)) (ops : List WriterOp),
      th < ((ns / 1000000 : Nat) : Int) →
      ∃ r dh,
        HTTPHandler th ns nid p m hdr { ops := ops, panicVal := none } = .ok r ∧
        r.outcomes = [dh] ∧ dh.IsProblem = false) := by
  refine ⟨?_, ?_, ?_⟩
  · intro th ns p m sc si pi prob hs
    simp only [appendHTTP]
    split
    · rename_i hcond
      exact iff_of_true rfl hcond
    · rename_i hcond
      exact iff_of_false (by simp) hcond
  · intro th ns nid p m hdr ops h
    simp only [HTTPHandler, serveHTTP, appendHTTP_under th ns h]
    exact ⟨_, rfl, rfl⟩
  · intro th ns nid p m hdr ops h
    simp only [HTTPHandler, serveHTTP, appendHTTP_over th ns h]
    exact ⟨_, _, rfl, rfl, rfl⟩

/-- Claim C3, witness: at threshold `500` ms, a 1 ms request records
nothing and a 501 ms request records one non-problem outcome. -/
theorem appendHTTP_policy_witness :
    (∃ r, HTTPHandler 500 1000000 9 "/" "GET" []
        { ops := [], panicVal := none } = .ok r ∧ r.outcomes = []) ∧
    (∃ r dh, HTTPHandler 500 501000000 9 "/" "GET" []
        { ops := [], panicVal := none } = .ok r ∧ r.outcomes = [dh] ∧
        dh.IsProblem = false) :=
  ⟨appendHTTP_policy.2.1 500 1000000 9 "/" "GET" [] [] (by decide),
   appendHTTP_policy.2.2 500 501000000 9 "/" "GET" [] [] (by decide)⟩
